import Mathlib

/-!
Verification development for the DragonSync-Meshtastic telemetry bridge.

Shallow embedding of the coalescing / throttled fan-out engine of
src/dragonsync_meshtastic.py: helper functions (safe_str, clamp_int,
shorten_callsign), the ATAK packet builders (build_atak_pli_packet,
build_atak_geochat_packet with its regex field extraction), the GeoChat
throttle gate of send_packets_async, and the latest_updates registry
written by cot_receiver and drained by flush_updates.

Wall-clock times are modelled as rationals; Python dicts are modelled as
functions into Option; Python float-to-int conversion int(x) is modelled
as exact truncation toward zero on rationals.
-/

/-- Python int(x): truncation toward zero. -/
def truncToZero (q : ℚ) : ℤ := if 0 ≤ q then ⌊q⌋ else ⌈q⌉

/-- safe_str (line 59): convert to string and truncate to max_size characters
(s[:max_size]). -/
def safe_str (s : String) (maxSize : ℕ) : String := ⟨s.data.take maxSize⟩

/-- clamp_int (line 65): clamp an integer to the maximum value allowed for
bits bits (unsigned): max(0, min(int(val), (1 << bits) - 1)). -/
def clamp_int (val : ℚ) (bits : ℕ) : ℤ :=
  max 0 (min (truncToZero val) (2 ^ bits - 1))

/-- Python callsign[-4:]: the last 4 characters (the whole string when it is
shorter than 4). -/
def lastFour (s : String) : String := ⟨s.data.drop (s.data.length - 4)⟩

/-- The recognized callsign prefixes, in the order the source tries them. -/
def cot_prefixes : List String := ["wardragon-", "drone-", "pilot-", "home-"]

/-- shorten_callsign (line 71): for callsigns starting with one of the
recognized prefixes, the prefix plus the last 4 characters; otherwise the
last 4 characters when the length is at least 4, else the callsign itself. -/
def shorten_callsign (callsign : String) : String :=
  match cot_prefixes.find? (fun p => p.data.isPrefixOf callsign.data) with
  | some p => p ++ lastFour callsign
  | none => if callsign.data.length ≥ 4 then lastFour callsign else callsign

/-- A parsed CoT message as produced by parse_cot (line 210): callsign,
position, remarks and a type string among drone / system / pilot / home /
unknown. parse_cot never sets speed or course, so the builders read them
with msg.get(key, 0) semantics, modelled by Option. -/
structure CoTMsg where
  callsign : String
  lat : ℚ
  lon : ℚ
  alt : ℚ
  remarks : String
  type : String
  speed : Option ℚ
  course : Option ℚ
deriving Repr, DecidableEq

/-- The fields of a TAKPacket with a PLI payload set by
build_atak_pli_packet (line 276). -/
structure PliPacket where
  callsign : String
  device_callsign : String
  latitude_i : ℤ
  longitude_i : ℤ
  altitude : ℤ
  speed : ℤ
  course : ℤ
deriving Repr, DecidableEq

/-- build_atak_pli_packet (line 276): returns None for type "unknown",
otherwise the PLI packet with the shortened callsign, fixed-point
coordinates int(lat * 1e7) / int(lon * 1e7), integer altitude, and speed
and course clamped to 16 bits. -/
def build_atak_pli_packet (msg : CoTMsg) : Option PliPacket :=
  if msg.type = "unknown" then none
  else
    let short_callsign := shorten_callsign msg.callsign
    some {
      callsign := safe_str short_callsign 120
      device_callsign := safe_str short_callsign 120
      latitude_i := truncToZero (msg.lat * 10 ^ 7)
      longitude_i := truncToZero (msg.lon * 10 ^ 7)
      altitude := truncToZero msg.alt
      speed := clamp_int (msg.speed.getD 0) 16
      course := clamp_int (msg.course.getD 0) 16
    }

/-! ### Regex field extraction of build_atak_geochat_packet (lines 317-329)

The four re.search patterns of the source are modelled directly. Each
pattern is a literal, a run of \s, a captured nonempty character-class run
and possibly a literal suffix; in every pattern the character following a
greedy run is outside that run's class, so greedy matching without
backtracking is exact, and re.search's leftmost-match rule is modelled by
trying the pattern at every suffix from the left. Character classes are
modelled at ASCII (the inputs the system exchanges are ASCII apart from
the degree sign, which no class contains). -/

/-- Python regex \s at ASCII. -/
def isWsChar (c : Char) : Bool :=
  c == ' ' || c == '\t' || c == '\n' || c == '\r' || c == '\x0b' || c == '\x0c'

/-- The class [\d\.]. -/
def isDigitDotChar (c : Char) : Bool := c.isDigit || c == '.'

/-- The class [\w./] at ASCII. -/
def isWordSlashChar (c : Char) : Bool :=
  c.isAlphanum || c == '_' || c == '.' || c == '/'

/-- Strip a literal from the front, or fail. -/
def dropLit (lit s : List Char) : Option (List Char) :=
  match lit, s with
  | [], rest => some rest
  | _ :: _, [] => none
  | a :: as, b :: bs => if a = b then dropLit as bs else none

/-- Match "CPU Usage:\s*([\d\.]+)%" at the start of s, returning the capture. -/
def matchCpuAt (s : List Char) : Option (List Char) :=
  match dropLit "CPU Usage:".data s with
  | none => none
  | some r1 =>
    let r2 := r1.dropWhile isWsChar
    let cap := r2.takeWhile isDigitDotChar
    let r3 := r2.dropWhile isDigitDotChar
    if cap = [] then none
    else if r3.head? = some '%' then some cap else none

/-- Match "Temperature:\s*([\d\.]+)°C" at the start of s. -/
def matchTemperatureAt (s : List Char) : Option (List Char) :=
  match dropLit "Temperature:".data s with
  | none => none
  | some r1 =>
    let r2 := r1.dropWhile isWsChar
    let cap := r2.takeWhile isDigitDotChar
    let r3 := r2.dropWhile isDigitDotChar
    if cap = [] then none
    else if (dropLit "°C".data r3).isSome then some cap else none

/-- The tail "\s*([\w./]+)" shared by the two Temp patterns. -/
def matchValueRun (s : List Char) : Option (List Char) :=
  let cap := (s.dropWhile isWsChar).takeWhile isWordSlashChar
  if cap = [] then none else some cap

/-- Match "(?:Pluto|AD936X)\s*Temp:\s*([\w./]+)" at the start of s. -/
def matchAd936xAt (s : List Char) : Option (List Char) :=
  let afterLabel :=
    match dropLit "Pluto".data s with
    | some r => some r
    | none => dropLit "AD936X".data s
  match afterLabel with
  | none => none
  | some r1 =>
    match dropLit "Temp:".data (r1.dropWhile isWsChar) with
    | none => none
    | some r2 => matchValueRun r2

/-- Match "Zynq Temp:\s*([\w./]+)" at the start of s. -/
def matchZynqAt (s : List Char) : Option (List Char) :=
  match dropLit "Zynq Temp:".data s with
  | none => none
  | some r1 => matchValueRun r1

/-- re.search: try the pattern at every position, leftmost match wins. -/
def reSearch (m : List Char → Option (List Char)) : List Char → Option (List Char)
  | [] => m []
  | c :: rest =>
    match m (c :: rest) with
    | some r => some r
    | none => reSearch m rest

/-- cpu_match / cpu_val (lines 318, 322). -/
def extract_cpu (remarks : String) : Option String :=
  (reSearch matchCpuAt remarks.data).map (fun l => (⟨l⟩ : String))

/-- temp_match / temp_val (lines 319, 323). -/
def extract_temp (remarks : String) : Option String :=
  (reSearch matchTemperatureAt remarks.data).map (fun l => (⟨l⟩ : String))

/-- ad936x_match / ad936x_val (lines 320, 324). -/
def extract_ad936x (remarks : String) : Option String :=
  (reSearch matchAd936xAt remarks.data).map (fun l => (⟨l⟩ : String))

/-- zynq_match / zynq_val (lines 321, 325). -/
def extract_zynq (remarks : String) : Option String :=
  (reSearch matchZynqAt remarks.data).map (fun l => (⟨l⟩ : String))

/-- The detailed_message f-string of build_atak_geochat_packet (line 326),
with each missing field replaced by the sentinel "N/A". -/
def geochat_message (short_callsign remarks : String) : String :=
  short_callsign ++ " | CPU: " ++ (extract_cpu remarks).getD "N/A" ++
    "% | Temp: " ++ (extract_temp remarks).getD "N/A" ++
    "°C | AD936X: " ++ (extract_ad936x remarks).getD "N/A" ++
    " | Zynq: " ++ (extract_zynq remarks).getD "N/A"

/-- The fields of a TAKPacket with a GeoChat payload set by
build_atak_geochat_packet (line 304). -/
structure GeoChatPacket where
  callsign : String
  device_callsign : String
  latitude_i : ℤ
  longitude_i : ℤ
  altitude : ℤ
  message : String
  to_room : String
  to_callsign : String
deriving Repr, DecidableEq

/-- build_atak_geochat_packet (line 304): GeoChat packet for system
messages, with metrics extracted from remarks and the composed message
truncated to 256 characters. -/
def build_atak_geochat_packet (msg : CoTMsg) : GeoChatPacket :=
  let short_callsign := shorten_callsign msg.callsign
  { callsign := safe_str short_callsign 120
    device_callsign := safe_str short_callsign 120
    latitude_i := truncToZero (msg.lat * 10 ^ 7)
    longitude_i := truncToZero (msg.lon * 10 ^ 7)
    altitude := truncToZero msg.alt
    message := safe_str (geochat_message short_callsign msg.remarks) 256
    to_room := safe_str "All Chat Rooms" 120
    to_callsign := safe_str "All Chat Rooms" 120 }

/-! ### Throttle gate and send_packets_async (lines 342-380) -/

/-- A last-sent-time map (a Python dict keyed by identifier; times are
wall-clock seconds). last_geo_chat_sent is one such map. -/
def ThrottleState := String → Option ℚ

/-- The .get(unique_id, 0) read of the last-sent map (line 365). -/
def lastSentTime (s : ThrottleState) (id : String) : ℚ := (s id).getD 0

/-- The throttle check of send_packets_async (lines 363-367, 379-380),
parametric in the interval: allowed (true) with now recorded iff
now - last_sent >= interval, else denied (false) with the map unchanged.
The source instantiates interval with GEO_CHAT_INTERVAL for the GeoChat
kind; the richer variant keeps one such map per packet kind. -/
def throttle_allow (s : ThrottleState) (id : String) (now interval : ℚ) :
    Bool × ThrottleState :=
  if now - lastSentTime s id ≥ interval then
    (true, fun k => if k = id then some now else s k)
  else
    (false, s)

/-- GEO_CHAT_INTERVAL (line 125): seconds between GeoChat transmissions per
unique callsign. -/
def GEO_CHAT_INTERVAL : ℚ := 10

/-- send_packets_async (line 342), as the pure decision it makes at one
call: which PLI packet is sent (None exactly when the builder declines),
which GeoChat packet is sent (only for system / pilot / home types that
pass the throttle), and the updated last_geo_chat_sent map. -/
def send_packets_async (s : ThrottleState) (now : ℚ) (msg : CoTMsg) :
    Option PliPacket × Option GeoChatPacket × ThrottleState :=
  let pli := build_atak_pli_packet msg
  if msg.type ∈ (["system", "pilot", "home"] : List String) then
    let unique_id := shorten_callsign msg.callsign
    match throttle_allow s unique_id now GEO_CHAT_INTERVAL with
    | (true, s1) => (pli, some (build_atak_geochat_packet msg), s1)
    | (false, s1) => (pli, none, s1)
  else
    (pli, none, s)

/-! ### The latest_updates registry (lines 127, 384-406) -/

/-- latest_updates (line 127): the latest update per unique (shortened)
callsign, a Python dict modelled by its key-to-value map. -/
def Registry := String → Option CoTMsg

/-- The empty registry. -/
def emptyRegistry : Registry := fun _ => none

/-- The write latest_updates[unique_id] = msg performed by cot_receiver
(lines 392-393). -/
def cot_receive (r : Registry) (msg : CoTMsg) : Registry :=
  fun k => if k = shorten_callsign msg.callsign then some msg else r k

/-- A sequence of cot_receiver writes between two drains. -/
def cot_receive_all (r : Registry) (msgs : List CoTMsg) : Registry :=
  msgs.foldl cot_receive r

/-- One flush_updates pass (lines 399-405): every key present is popped and
its record delivered, leaving the registry empty. Returns (delivered
batch, registry afterwards). -/
def drain_all (r : Registry) : Registry × Registry :=
  (r, emptyRegistry)

/-- The record of the last upsert to identifier id in a sequence of
cot_receiver messages. -/
def lastUpsertTo (id : String) (msgs : List CoTMsg) : Option CoTMsg :=
  (msgs.filter (fun m => shorten_callsign m.callsign = id)).getLast?

/-! ### Spec-modelled richer-variant components

The repository's richer script variant (not included under src/) keeps a
last-seen timestamp per registry entry, evicts stale entries before each
drain, and throttles position packets with a per-category interval. These
are modelled from the spec. -/

/-- Modelled from the spec: per-category position-packet throttle interval
of the richer variant (spec 4.2) — short (5 s) for the moving drone
category, long (60 s) for every other category. The variant under src/
does not contain this interval table. -/
def position_interval (category : String) : ℚ :=
  if category = "drone" then 5 else 60

/-- Modelled from the spec: the richer variant's registry entry (spec 3),
identifier to latest record plus last-seen wall-clock timestamp. -/
def TimedRegistry := String → Option (CoTMsg × ℚ)

/-- Modelled from the spec: evict_stale(now, threshold) (spec 4.1) —
removes every entry whose last-seen age exceeds threshold; entries with
age at most threshold are retained. Absent from the variant under src/. -/
def evict_stale (r : TimedRegistry) (now threshold : ℚ) : TimedRegistry :=
  fun k =>
    match r k with
    | some (m, seen) => if now - seen > threshold then none else some (m, seen)
    | none => none

/-- Modelled from the spec: the drain of a timed registry (spec 4.1),
delivering every entry's record and emptying the registry. -/
def drain_timed (r : TimedRegistry) : TimedRegistry × TimedRegistry :=
  (r, fun _ => none)

/-- Modelled from the spec: one scheduler tick's registry phase (spec 4.5)
— eviction runs first, then the drain of what survived. -/
def scheduler_tick (r : TimedRegistry) (now threshold : ℚ) :
    TimedRegistry × TimedRegistry :=
  drain_timed (evict_stale r now threshold)

/-! ### Shared helper lemmas -/

/-- The empty last-sent map (no transmission recorded yet). -/
def emptyThrottleState : ThrottleState := fun _ => none

lemma truncToZero_intCast (n : ℤ) : truncToZero (n : ℚ) = n := by
  unfold truncToZero; split <;> simp

lemma throttle_allow_pos {s : ThrottleState} {id : String} {now interval : ℚ}
    (h : now - lastSentTime s id ≥ interval) :
    throttle_allow s id now interval =
      (true, fun k => if k = id then some now else s k) := by
  unfold throttle_allow; rw [if_pos h]

lemma throttle_allow_neg {s : ThrottleState} {id : String} {now interval : ℚ}
    (h : ¬ now - lastSentTime s id ≥ interval) :
    throttle_allow s id now interval = (false, s) := by
  unfold throttle_allow; rw [if_neg h]

lemma throttle_allow_fst_iff (s : ThrottleState) (id : String) (now interval : ℚ) :
    (throttle_allow s id now interval).1 = true ↔ now - lastSentTime s id ≥ interval := by
  by_cases h : now - lastSentTime s id ≥ interval
  · rw [throttle_allow_pos h]; simpa using h
  · rw [throttle_allow_neg h]; simpa using h

/-! ### Claim theorems -/

/-- C9: clamp idempotence: clamp(clamp(x, 16), 16) = clamp(x, 16) for every
integer x, and this clamp is what build_atak_pli_packet applies to the
speed and course fields of every packet it produces. -/
theorem clamp_int_idem_and_applied (x : ℤ) (msg : CoTMsg) (p : PliPacket) :
    clamp_int ((clamp_int (x : ℚ) 16 : ℤ) : ℚ) 16 = clamp_int (x : ℚ) 16 ∧
    (build_atak_pli_packet msg = some p →
      p.speed = clamp_int (msg.speed.getD 0) 16 ∧
      p.course = clamp_int (msg.course.getD 0) 16) := by
  constructor
  · unfold clamp_int
    rw [truncToZero_intCast, truncToZero_intCast]
    have h65 : (2 : ℤ) ^ 16 - 1 = 65535 := by norm_num
    rw [h65]
    omega
  · intro h
    unfold build_atak_pli_packet at h
    split at h
    · exact absurd h (by simp)
    · obtain rfl : _ = p := Option.some.inj h
      exact ⟨rfl, rfl⟩

/-- Concrete sample message for the C9 witness. -/
def msgSpeedW : CoTMsg :=
  { callsign := "drone-abc1234", lat := 0, lon := 0, alt := 0, remarks := ""
    type := "drone", speed := none, course := none }

/-- The packet build_atak_pli_packet produces from msgSpeedW. -/
def pliSpeedW : PliPacket :=
  { callsign := safe_str (shorten_callsign "drone-abc1234") 120
    device_callsign := safe_str (shorten_callsign "drone-abc1234") 120
    latitude_i := truncToZero ((0 : ℚ) * 10 ^ 7)
    longitude_i := truncToZero ((0 : ℚ) * 10 ^ 7)
    altitude := truncToZero (0 : ℚ)
    speed := clamp_int ((none : Option ℚ).getD 0) 16
    course := clamp_int ((none : Option ℚ).getD 0) 16 }

/-- Witness for C9 at x = 70000 and a concrete drone message. -/
theorem clamp_int_idem_and_applied_witness :
    clamp_int ((clamp_int ((70000 : ℤ) : ℚ) 16 : ℤ) : ℚ) 16 =
      clamp_int ((70000 : ℤ) : ℚ) 16 ∧
    (pliSpeedW.speed = clamp_int (msgSpeedW.speed.getD 0) 16 ∧
      pliSpeedW.course = clamp_int (msgSpeedW.course.getD 0) 16) :=
  ⟨(clamp_int_idem_and_applied 70000 msgSpeedW pliSpeedW).1,
   (clamp_int_idem_and_applied 70000 msgSpeedW pliSpeedW).2 rfl⟩

/-- C10: callsign shortening: a callsign starting with a recognized prefix
shortens to that prefix plus its last 4 characters; with no recognized
prefix it shortens to its last 4 characters when at least 4 long, and is
returned unchanged when shorter. -/
theorem shorten_callsign_cases (c p : String) :
    (p ∈ cot_prefixes → p.data.isPrefixOf c.data = true →
      shorten_callsign c = p ++ lastFour c) ∧
    ((∀ q ∈ cot_prefixes, ¬ q.data.isPrefixOf c.data = true) →
      (4 ≤ c.data.length → shorten_callsign c = lastFour c) ∧
      (c.data.length < 4 → shorten_callsign c = c)) := by
  constructor
  · intro hmem hpre
    simp only [cot_prefixes, List.mem_cons, List.not_mem_nil, or_false] at hmem
    unfold shorten_callsign
    simp only [cot_prefixes]
    obtain ⟨t, ht⟩ := List.isPrefixOf_iff_prefix.mp hpre
    rcases hmem with rfl | rfl | rfl | rfl
    · rw [@List.find?_cons_of_pos _ (fun q => q.data.isPrefixOf c.data)
        "wardragon-" ["drone-", "pilot-", "home-"] hpre]
    · have hw : "wardragon-".data.isPrefixOf c.data = false := by rw [← ht]; rfl
      rw [@List.find?_cons_of_neg _ (fun q => q.data.isPrefixOf c.data)
          "wardragon-" ["drone-", "pilot-", "home-"] (by simp [hw]),
        @List.find?_cons_of_pos _ (fun q => q.data.isPrefixOf c.data)
          "drone-" ["pilot-", "home-"] hpre]
    · have hw : "wardragon-".data.isPrefixOf c.data = false := by rw [← ht]; rfl
      have hd : "drone-".data.isPrefixOf c.data = false := by rw [← ht]; rfl
      rw [@List.find?_cons_of_neg _ (fun q => q.data.isPrefixOf c.data)
          "wardragon-" ["drone-", "pilot-", "home-"] (by simp [hw]),
        @List.find?_cons_of_neg _ (fun q => q.data.isPrefixOf c.data)
          "drone-" ["pilot-", "home-"] (by simp [hd]),
        @List.find?_cons_of_pos _ (fun q => q.data.isPrefixOf c.data)
          "pilot-" ["home-"] hpre]
    · have hw : "wardragon-".data.isPrefixOf c.data = false := by rw [← ht]; rfl
      have hd : "drone-".data.isPrefixOf c.data = false := by rw [← ht]; rfl
      have hp : "pilot-".data.isPrefixOf c.data = false := by rw [← ht]; rfl
      rw [@List.find?_cons_of_neg _ (fun q => q.data.isPrefixOf c.data)
          "wardragon-" ["drone-", "pilot-", "home-"] (by simp [hw]),
        @List.find?_cons_of_neg _ (fun q => q.data.isPrefixOf c.data)
          "drone-" ["pilot-", "home-"] (by simp [hd]),
        @List.find?_cons_of_neg _ (fun q => q.data.isPrefixOf c.data)
          "pilot-" ["home-"] (by simp [hp]),
        @List.find?_cons_of_pos _ (fun q => q.data.isPrefixOf c.data)
          "home-" [] hpre]
  · intro hnone
    have hfind : cot_prefixes.find? (fun q => q.data.isPrefixOf c.data) = none :=
      List.find?_eq_none.mpr hnone
    unfold shorten_callsign
    rw [hfind]
    constructor
    · intro h4
      rw [if_pos h4]
    · intro h4
      rw [if_neg (by omega)]

/-- Witness for C10 at a prefixed callsign, a long unprefixed one and a
short one. -/
theorem shorten_callsign_cases_witness :
    shorten_callsign "pilot-abc1234" = "pilot-" ++ lastFour "pilot-abc1234" ∧
    shorten_callsign "abcde" = lastFour "abcde" ∧
    shorten_callsign "ab" = "ab" :=
  ⟨(shorten_callsign_cases "pilot-abc1234" "pilot-").1 (by decide) (by decide),
   ((shorten_callsign_cases "abcde" "x").2 (by decide)).1 (by decide),
   ((shorten_callsign_cases "ab" "x").2 (by decide)).2 (by decide)⟩

/-- C4: a record of category unknown yields no position packet and no
GeoChat packet: build_atak_pli_packet declines it and send_packets_async
returns before ever invoking the text builder, leaving the throttle map
untouched. -/
theorem unknown_category_excluded (s : ThrottleState) (now : ℚ) (msg : CoTMsg)
    (h : msg.type = "unknown") :
    build_atak_pli_packet msg = none ∧
    send_packets_async s now msg = (none, none, s) := by
  have hb : build_atak_pli_packet msg = none := by
    unfold build_atak_pli_packet
    rw [if_pos h]
  refine ⟨hb, ?_⟩
  unfold send_packets_async
  rw [hb, if_neg (by rw [h]; decide)]

/-- Witness for C4 at a concrete unknown-category record. -/
theorem unknown_category_excluded_witness :
    build_atak_pli_packet
      { callsign := "xyz", lat := 1, lon := 2, alt := 3, remarks := "r"
        type := "unknown", speed := none, course := none } = none ∧
    send_packets_async emptyThrottleState 0
      { callsign := "xyz", lat := 1, lon := 2, alt := 3, remarks := "r"
        type := "unknown", speed := none, course := none } =
      (none, none, emptyThrottleState) :=
  unknown_category_excluded emptyThrottleState 0
    { callsign := "xyz", lat := 1, lon := 2, alt := 3, remarks := "r"
      type := "unknown", speed := none, course := none } rfl

/-- C2: throttle gate semantics: the check succeeds and records now iff
the elapsed time since the recorded last-sent time reaches the interval; a
denied check returns false and leaves the map unchanged; and a check
allowed immediately after an allowed one at time now can only succeed once
at least interval seconds have elapsed since now. -/
theorem throttle_gate_semantics (s : ThrottleState) (id : String) (now interval : ℚ) :
    ((throttle_allow s id now interval).1 = true ↔
      now - lastSentTime s id ≥ interval) ∧
    ((throttle_allow s id now interval).1 = true →
      (throttle_allow s id now interval).2 id = some now) ∧
    ((throttle_allow s id now interval).1 = false →
      (throttle_allow s id now interval).2 = s) ∧
    (∀ s1 t2, throttle_allow s id now interval = (true, s1) →
      (throttle_allow s1 id t2 interval).1 = true → t2 - now ≥ interval) := by
  refine ⟨throttle_allow_fst_iff s id now interval, ?_, ?_, ?_⟩
  · intro h
    have hcond := (throttle_allow_fst_iff s id now interval).mp h
    rw [throttle_allow_pos hcond]
    simp
  · intro h
    by_cases hcond : now - lastSentTime s id ≥ interval
    · rw [throttle_allow_pos hcond] at h
      simp at h
    · rw [throttle_allow_neg hcond]
  · intro s1 t2 heq htrue
    by_cases hcond : now - lastSentTime s id ≥ interval
    · rw [throttle_allow_pos hcond] at heq
      have hs1 := congrArg Prod.snd heq
      subst hs1
      have h2 := (throttle_allow_fst_iff _ id t2 interval).mp htrue
      have hlast : lastSentTime (fun k => if k = id then some now else s k) id = now := by
        simp [lastSentTime]
      rw [hlast] at h2
      exact h2
    · rw [throttle_allow_neg hcond] at heq
      simp at heq

/-- Witness for C2: a first check at t=12 (interval 10, nothing recorded)
succeeds and records 12; a check at t=15 is denied and changes nothing;
a second success at t=22 is at least one interval after the first. -/
theorem throttle_gate_semantics_witness :
    (throttle_allow emptyThrottleState "wardragon-18a3" 12 10).1 = true ∧
    (throttle_allow emptyThrottleState "wardragon-18a3" 12 10).2 "wardragon-18a3"
      = some 12 ∧
    (throttle_allow (fun k => if k = "wardragon-18a3" then some 12
        else emptyThrottleState k) "wardragon-18a3" 15 10).2
      = (fun k => if k = "wardragon-18a3" then some 12 else emptyThrottleState k) ∧
    (22 : ℚ) - 12 ≥ 10 := by
  have hfirst : (throttle_allow emptyThrottleState "wardragon-18a3" 12 10).1 = true :=
    (throttle_gate_semantics emptyThrottleState "wardragon-18a3" 12 10).1.mpr
      (by norm_num [lastSentTime, emptyThrottleState])
  refine ⟨hfirst, ?_, ?_, ?_⟩
  · exact (throttle_gate_semantics emptyThrottleState "wardragon-18a3" 12 10).2.1 hfirst
  · exact (throttle_gate_semantics _ "wardragon-18a3" 15 10).2.2.1
      (by rw [throttle_allow_neg (by norm_num [lastSentTime])])
  · refine (throttle_gate_semantics emptyThrottleState "wardragon-18a3" 12 10).2.2.2
      (fun k => if k = "wardragon-18a3" then some 12 else emptyThrottleState k) 22
      (throttle_allow_pos (by norm_num [lastSentTime, emptyThrottleState])) ?_
    exact (throttle_gate_semantics _ "wardragon-18a3" 22 10).1.mpr
      (by norm_num [lastSentTime])

/-- C3: position-packet throttling is category-dependent: the drone
category uses the short 5 s interval, every other category the long 60 s
interval, and two position-throttle checks for home-0001 3 seconds apart
under the 60 s interval yield true then false. -/
theorem position_throttle_category (category : String) (s : ThrottleState) (t : ℚ) :
    position_interval "drone" = 5 ∧
    (category ≠ "drone" → position_interval category = 60) ∧
    (∀ s1, throttle_allow s "home-0001" t (position_interval "home") = (true, s1) →
      (throttle_allow s1 "home-0001" (t + 3) (position_interval "home")).1 = false) := by
  have hhome : position_interval "home" = 60 := by simp [position_interval]
  refine ⟨by simp [position_interval], fun h => by simp [position_interval, h], ?_⟩
  intro s1 heq
  rw [hhome] at heq ⊢
  by_cases hcond : t - lastSentTime s "home-0001" ≥ 60
  · rw [throttle_allow_pos hcond] at heq
    have hs1 := congrArg Prod.snd heq
    subst hs1
    rw [throttle_allow_neg ?_]
    · intro habs
      have : lastSentTime (fun k => if k = "home-0001" then some t else s k) "home-0001"
          = t := by simp [lastSentTime]
      rw [this] at habs
      norm_num at habs
  · rw [throttle_allow_neg hcond] at heq
    simp at heq

/-- Witness for C3: from an empty throttle map, a home check at t = 100
(interval 60) succeeds, and the theorem then makes the check at t = 103
fail. -/
theorem position_throttle_category_witness :
    position_interval "drone" = 5 ∧
    position_interval "home" = 60 ∧
    (throttle_allow (fun k => if k = "home-0001" then some 100
        else emptyThrottleState k) "home-0001" (100 + 3)
        (position_interval "home")).1 = false := by
  refine ⟨(position_throttle_category "home" emptyThrottleState 100).1,
    (position_throttle_category "home" emptyThrottleState 100).2.1 (by decide), ?_⟩
  refine (position_throttle_category "home" emptyThrottleState 100).2.2
    (fun k => if k = "home-0001" then some 100 else emptyThrottleState k) ?_
  have hhome : position_interval "home" = 60 := by simp [position_interval]
  rw [hhome]
  exact throttle_allow_pos (by norm_num [lastSentTime, emptyThrottleState])

/-- C6: stale eviction: an entry whose last-seen age exceeds the threshold
is gone after evict_stale and absent from the tick's drained batch; an
entry with age at most the threshold is retained by evict_stale; and the
tick drains exactly what survived eviction (eviction runs first). -/
theorem evict_stale_spec (r : TimedRegistry) (now threshold : ℚ) (id : String)
    (m : CoTMsg) (seen : ℚ) (h : r id = some (m, seen)) :
    (now - seen > threshold →
      evict_stale r now threshold id = none ∧
      (scheduler_tick r now threshold).1 id = none) ∧
    (now - seen ≤ threshold → evict_stale r now threshold id = some (m, seen)) ∧
    (scheduler_tick r now threshold).1 = evict_stale r now threshold := by
  refine ⟨?_, ?_, rfl⟩
  · intro hage
    have he : evict_stale r now threshold id = none := by
      unfold evict_stale
      rw [h]
      simp only [if_pos hage]
    exact ⟨he, he⟩
  · intro hage
    unfold evict_stale
    rw [h]
    simp only [if_neg (not_lt.mpr hage)]

/-- Sample timed registry for the C6 witness: one entry last seen at 0. -/
def timedRegW : TimedRegistry :=
  fun k => if k = "drone-1234" then some (msgSpeedW, 0) else none

/-- Witness for C6: with threshold 300, an entry last seen at t=0 is
evicted at now=301 and missing from that tick's batch, while at now=300
it is retained. -/
theorem evict_stale_spec_witness :
    evict_stale timedRegW 301 300 "drone-1234" = none ∧
    (scheduler_tick timedRegW 301 300).1 "drone-1234" = none ∧
    evict_stale timedRegW 300 300 "drone-1234" = some (msgSpeedW, 0) := by
  have h : timedRegW "drone-1234" = some (msgSpeedW, 0) := by
    simp [timedRegW]
  have h301 := (evict_stale_spec timedRegW 301 300 "drone-1234" msgSpeedW 0 h).1
    (by norm_num)
  have h300 := (evict_stale_spec timedRegW 300 300 "drone-1234" msgSpeedW 0 h).2.1
    (by norm_num)
  exact ⟨h301.1, h301.2, h300⟩

lemma cot_receive_all_apply (msgs : List CoTMsg) (r : Registry) (id : String) :
    cot_receive_all r msgs id =
      match lastUpsertTo id msgs with
      | some m => some m
      | none => r id := by
  induction msgs using List.reverseRecOn with
  | nil => rfl
  | append_singleton ms m ih =>
    have hfold : cot_receive_all r (ms ++ [m]) = cot_receive (cot_receive_all r ms) m := by
      unfold cot_receive_all
      rw [List.foldl_append]
      rfl
    rw [hfold]
    unfold cot_receive
    by_cases hm : shorten_callsign m.callsign = id
    · have hlast : lastUpsertTo id (ms ++ [m]) = some m := by
        unfold lastUpsertTo
        rw [List.filter_append]
        simp [hm, List.getLast?_concat]
      rw [hlast, if_pos hm.symm]
    · have hlast : lastUpsertTo id (ms ++ [m]) = lastUpsertTo id ms := by
        unfold lastUpsertTo
        rw [List.filter_append]
        simp [hm]
      rw [hlast, if_neg (fun habs => hm habs.symm)]
      exact ih

/-- C1: latest-wins coalescing: after any interleaved sequence of
cot_receiver writes, the record the next flush delivers for an identifier
is exactly that of the last write to it, and the identifier is absent from
the registry after the drain. -/
theorem latest_wins_coalescing (r : Registry) (msgs : List CoTMsg) (id : String)
    (m : CoTMsg) (h : lastUpsertTo id msgs = some m) :
    (drain_all (cot_receive_all r msgs)).1 id = some m ∧
    (drain_all (cot_receive_all r msgs)).2 id = none := by
  constructor
  · show cot_receive_all r msgs id = some m
    rw [cot_receive_all_apply, h]
  · rfl

/-- First upsert of the C1 witness scenario. -/
def msgDroneA : CoTMsg :=
  { callsign := "drone-AB1234", lat := 471 / 10, lon := -1222 / 10, alt := 50
    remarks := "", type := "drone", speed := none, course := none }

/-- Second upsert of the C1 witness scenario: same identifier, alt 55. -/
def msgDroneB : CoTMsg :=
  { callsign := "drone-AB1234", lat := 471 / 10, lon := -1222 / 10, alt := 55
    remarks := "", type := "drone", speed := none, course := none }

/-- Witness for C1: two upserts to drone-1234 and one to another
identifier in between; the drain delivers the second drone record and the
identifier is gone afterwards. -/
theorem latest_wins_coalescing_witness :
    (drain_all (cot_receive_all emptyRegistry [msgDroneA, msgSpeedW, msgDroneB])).1
      "drone-1234" = some msgDroneB ∧
    (drain_all (cot_receive_all emptyRegistry [msgDroneA, msgSpeedW, msgDroneB])).2
      "drone-1234" = none :=
  latest_wins_coalescing emptyRegistry [msgDroneA, msgSpeedW, msgDroneB]
    "drone-1234" msgDroneB rfl

lemma abs_truncToZero_le {q : ℚ} {B : ℤ} (h : |q| ≤ (B : ℚ)) :
    |truncToZero q| ≤ B := by
  obtain ⟨hlo, hhi⟩ := abs_le.mp h
  unfold truncToZero
  by_cases hq : 0 ≤ q
  · rw [if_pos hq, abs_of_nonneg (Int.floor_nonneg.mpr hq)]
    have := Int.floor_le_floor hhi
    simpa using this
  · have hq' : q ≤ 0 := le_of_not_le hq
    have hceil0 : ⌈q⌉ ≤ 0 := Int.ceil_le.mpr (by exact_mod_cast hq')
    rw [if_neg hq, abs_of_nonpos hceil0]
    have h2 : -B ≤ ⌈q⌉ := by
      have h3 := Int.ceil_le_ceil hlo
      rw [show (-(B : ℚ)) = ((-B : ℤ) : ℚ) by push_cast ; ring] at h3
      rwa [Int.ceil_intCast] at h3
    omega

/-- The record with latitude 1.5e-7 degrees used against C5: exact
arithmetic gives lat × 1e7 = 1.5, where truncation (1) and rounding (2)
differ. -/
def msgTinyLat : CoTMsg :=
  { callsign := "drone-AB1234", lat := 3 / 20000000, lon := 0, alt := 0
    remarks := "", type := "drone", speed := none, course := none }

/-- The packet build_atak_pli_packet produces from msgTinyLat. -/
def pliTinyLat : PliPacket :=
  { callsign := safe_str (shorten_callsign msgTinyLat.callsign) 120
    device_callsign := safe_str (shorten_callsign msgTinyLat.callsign) 120
    latitude_i := truncToZero (msgTinyLat.lat * 10 ^ 7)
    longitude_i := truncToZero (msgTinyLat.lon * 10 ^ 7)
    altitude := truncToZero msgTinyLat.alt
    speed := clamp_int (msgTinyLat.speed.getD 0) 16
    course := clamp_int (msgTinyLat.course.getD 0) 16 }

/-- Counterexample to C5 as stated: at latitude 1.5e-7 degrees the packet
field is 1, but round(degrees × 1e7) = round(1.5) = 2 — the source uses
Python int(), which truncates toward zero, not round. -/
theorem pli_round_counterexample :
    (build_atak_pli_packet msgTinyLat).map PliPacket.latitude_i = some 1 ∧
    round (msgTinyLat.lat * 10 ^ 7) = 2 ∧ (1 : ℤ) ≠ 2 := by
  have hlat : msgTinyLat.lat * 10 ^ 7 = 3 / 2 := by
    show (3 / 20000000 : ℚ) * 10 ^ 7 = 3 / 2
    norm_num
  have hval : truncToZero (msgTinyLat.lat * 10 ^ 7) = 1 := by
    rw [truncToZero, hlat, if_pos (by norm_num)]
    norm_num
  have hbuild : build_atak_pli_packet msgTinyLat = some pliTinyLat := rfl
  refine ⟨?_, ?_, by norm_num⟩
  · rw [hbuild]
    show some pliTinyLat.latitude_i = some 1
    rw [show pliTinyLat.latitude_i = truncToZero (msgTinyLat.lat * 10 ^ 7) from rfl,
      hval]
  · rw [hlat, round_eq]
    norm_num

/-- C5 (amended): for every record the position builder accepts, the
latitude and longitude fields equal the truncation toward zero of
degrees × 1e7, and within geographic ranges (|lat| ≤ 90, |lon| ≤ 180)
each value fits a signed 32-bit integer. -/
theorem pli_fixed_point_encoding (msg : CoTMsg) (p : PliPacket)
    (h : build_atak_pli_packet msg = some p) :
    p.latitude_i = truncToZero (msg.lat * 10 ^ 7) ∧
    p.longitude_i = truncToZero (msg.lon * 10 ^ 7) ∧
    (|msg.lat| ≤ 90 → -(2 ^ 31) ≤ p.latitude_i ∧ p.latitude_i < 2 ^ 31) ∧
    (|msg.lon| ≤ 180 → -(2 ^ 31) ≤ p.longitude_i ∧ p.longitude_i < 2 ^ 31) := by
  have hfields : p.latitude_i = truncToZero (msg.lat * 10 ^ 7) ∧
      p.longitude_i = truncToZero (msg.lon * 10 ^ 7) := by
    unfold build_atak_pli_packet at h
    split at h
    · exact absurd h (by simp)
    · obtain rfl : _ = p := Option.some.inj h
      exact ⟨rfl, rfl⟩
  refine ⟨hfields.1, hfields.2, ?_, ?_⟩
  · intro hlat
    have habs : |msg.lat * 10 ^ 7| ≤ ((900000000 : ℤ) : ℚ) := by
      rw [abs_mul, abs_of_nonneg (by positivity : (0 : ℚ) ≤ 10 ^ 7)]
      have := mul_le_mul_of_nonneg_right hlat (by positivity : (0 : ℚ) ≤ 10 ^ 7)
      calc |msg.lat| * 10 ^ 7 ≤ 90 * 10 ^ 7 := this
        _ ≤ ((900000000 : ℤ) : ℚ) := by norm_num
    have hb := abs_le.mp (abs_truncToZero_le habs)
    have h31 : (2 : ℤ) ^ 31 = 2147483648 := by norm_num
    rw [hfields.1]
    omega
  · intro hlon
    have habs : |msg.lon * 10 ^ 7| ≤ ((1800000000 : ℤ) : ℚ) := by
      rw [abs_mul, abs_of_nonneg (by positivity : (0 : ℚ) ≤ 10 ^ 7)]
      have := mul_le_mul_of_nonneg_right hlon (by positivity : (0 : ℚ) ≤ 10 ^ 7)
      calc |msg.lon| * 10 ^ 7 ≤ 180 * 10 ^ 7 := this
        _ ≤ ((1800000000 : ℤ) : ℚ) := by norm_num
    have hb := abs_le.mp (abs_truncToZero_le habs)
    have h31 : (2 : ℤ) ^ 31 = 2147483648 := by norm_num
    rw [hfields.2]
    omega

/-- Witness for C5 (amended) at the msgTinyLat record, whose coordinates
are geographic. -/
theorem pli_fixed_point_encoding_witness :
    pliTinyLat.latitude_i = truncToZero (msgTinyLat.lat * 10 ^ 7) ∧
    pliTinyLat.longitude_i = truncToZero (msgTinyLat.lon * 10 ^ 7) ∧
    (-(2 ^ 31) ≤ pliTinyLat.latitude_i ∧ pliTinyLat.latitude_i < 2 ^ 31) ∧
    (-(2 ^ 31) ≤ pliTinyLat.longitude_i ∧ pliTinyLat.longitude_i < 2 ^ 31) := by
  have h := pli_fixed_point_encoding msgTinyLat pliTinyLat rfl
  refine ⟨h.1, h.2.1, h.2.2.1 ?_, h.2.2.2 ?_⟩
  · show |(3 / 20000000 : ℚ)| ≤ 90
    rw [abs_of_nonneg (by norm_num)]
    norm_num
  · show |(0 : ℚ)| ≤ 180
    simp

/-- C7: remarks extraction totality: the extraction functions are total on
every remarks string by construction (no failure path exists in the
model), and each field whose pattern finds no match appears as the
sentinel N/A in the composed message. -/
theorem remarks_extraction_sentinels (cs remarks : String) :
    (extract_cpu remarks = none →
      "CPU: N/A%".data <:+: (geochat_message cs remarks).data) ∧
    (extract_temp remarks = none →
      "Temp: N/A°C".data <:+: (geochat_message cs remarks).data) ∧
    (extract_ad936x remarks = none →
      "AD936X: N/A".data <:+: (geochat_message cs remarks).data) ∧
    (extract_zynq remarks = none →
      "Zynq: N/A".data <:+: (geochat_message cs remarks).data) := by
  refine ⟨?_, ?_, ?_, ?_⟩
  · intro h
    refine ⟨(cs ++ " | ").data,
      (" | Temp: " ++ (extract_temp remarks).getD "N/A" ++ "°C | AD936X: " ++
        (extract_ad936x remarks).getD "N/A" ++ " | Zynq: " ++
        (extract_zynq remarks).getD "N/A").data, ?_⟩
    simp only [geochat_message, h, Option.getD_none, String.data_append,
      List.append_assoc]
    rfl
  · intro h
    refine ⟨(cs ++ " | CPU: " ++ (extract_cpu remarks).getD "N/A" ++ "% | ").data,
      (" | AD936X: " ++ (extract_ad936x remarks).getD "N/A" ++ " | Zynq: " ++
        (extract_zynq remarks).getD "N/A").data, ?_⟩
    simp only [geochat_message, h, Option.getD_none, String.data_append,
      List.append_assoc]
    rfl
  · intro h
    refine ⟨(cs ++ " | CPU: " ++ (extract_cpu remarks).getD "N/A" ++ "% | Temp: " ++
      (extract_temp remarks).getD "N/A" ++ "°C | ").data,
      (" | Zynq: " ++ (extract_zynq remarks).getD "N/A").data, ?_⟩
    simp only [geochat_message, h, Option.getD_none, String.data_append,
      List.append_assoc]
    rfl
  · intro h
    refine ⟨(cs ++ " | CPU: " ++ (extract_cpu remarks).getD "N/A" ++ "% | Temp: " ++
      (extract_temp remarks).getD "N/A" ++ "°C | AD936X: " ++
      (extract_ad936x remarks).getD "N/A" ++ " | ").data, [], ?_⟩
    simp only [geochat_message, h, Option.getD_none, String.data_append,
      List.append_assoc, List.append_nil]
    rfl

/-- Witness for C7: the remarks string "x" matches none of the four
patterns, so all four sentinels appear in the composed message. -/
theorem remarks_extraction_sentinels_witness :
    "CPU: N/A%".data <:+: (geochat_message "wardragon-18a3" "x").data ∧
    "Temp: N/A°C".data <:+: (geochat_message "wardragon-18a3" "x").data ∧
    "AD936X: N/A".data <:+: (geochat_message "wardragon-18a3" "x").data ∧
    "Zynq: N/A".data <:+: (geochat_message "wardragon-18a3" "x").data :=
  ⟨(remarks_extraction_sentinels "wardragon-18a3" "x").1 (by decide),
   (remarks_extraction_sentinels "wardragon-18a3" "x").2.1 (by decide),
   (remarks_extraction_sentinels "wardragon-18a3" "x").2.2.1 (by decide),
   (remarks_extraction_sentinels "wardragon-18a3" "x").2.2.2 (by decide)⟩

/-- The system record of spec Scenario 3. -/
def msgSystemScenario : CoTMsg :=
  { callsign := "wardragon-00e04c3618a3", lat := 0, lon := 0, alt := 0
    remarks := "CPU Usage: 42.5% Temp: 38.1°C Pluto: 0.72/1.0 Zynq: N/A"
    type := "system", speed := none, course := none }

/-- Counterexample to C8 as stated: for the Scenario 3 remarks string the
built GeoChat message contains neither "Temp: 38.1°C" nor
"Pluto: 0.72/1.0" — the remarks use "Temp:"/"Pluto:" labels while the
source's patterns expect "Temperature:" and "Pluto Temp:", and the
message always writes the AD936X label, never Pluto. -/
theorem geochat_scenario_counterexample :
    ¬ ("Temp: 38.1°C".data <:+:
        (build_atak_geochat_packet msgSystemScenario).message.data) ∧
    ¬ ("Pluto: 0.72/1.0".data <:+:
        (build_atak_geochat_packet msgSystemScenario).message.data) := by
  have hmsg : (build_atak_geochat_packet msgSystemScenario).message =
      "wardragon-18a3 | CPU: 42.5% | Temp: N/A°C | AD936X: N/A | Zynq: N/A" := by
    decide
  rw [hmsg]
  exact ⟨by decide, by decide⟩

/-- C8 (amended): for the Scenario 3 remarks string the system text
builder's message contains "CPU: 42.5%", "Temp: N/A°C", "AD936X: N/A" and
"Zynq: N/A" (only the CPU pattern matches; the other three fields fall
back to the sentinel). -/
theorem geochat_scenario_message :
    "CPU: 42.5%".data <:+:
      (build_atak_geochat_packet msgSystemScenario).message.data ∧
    "Temp: N/A°C".data <:+:
      (build_atak_geochat_packet msgSystemScenario).message.data ∧
    "AD936X: N/A".data <:+:
      (build_atak_geochat_packet msgSystemScenario).message.data ∧
    "Zynq: N/A".data <:+:
      (build_atak_geochat_packet msgSystemScenario).message.data := by
  have hmsg : (build_atak_geochat_packet msgSystemScenario).message =
      "wardragon-18a3 | CPU: 42.5% | Temp: N/A°C | AD936X: N/A | Zynq: N/A" := by
    decide
  rw [hmsg]
  exact ⟨by decide, by decide, by decide, by decide⟩
